import Mathlib

/-!
Verification of the teacher-registration application (`app.py`).

The development embeds the data model and the two stateful routes of the
application — `processar_cadastro` (POST `/cadastro`) and `excluir_professor`
(GET `/excluir/<id>`) — as pure Lean functions over an explicit application
state (database rows, files on disk, directories on disk).  The string and
path helpers used by the routes (`werkzeug.utils.secure_filename`,
`os.path.join`, `os.path.splitext`, `os.path.dirname`, `str.isdigit`,
`int(...)`) are embedded alongside; each embedding's doc comment records the
scope of the model where the underlying Python primitive is Unicode-aware.
-/

/-- Models Python `str.isdigit` per character.  `str.isdigit` is true for
Unicode decimal digits (category Nd) and for characters carrying the digit
numeric property, such as the superscript digits.  The model covers the ASCII
digits `0-9`, the Latin-1 superscripts `¹ ² ³`, the remaining superscript
digits U+2070 and U+2074–U+2079, and the Arabic-Indic decimal digits
U+0660–U+0669; every character evaluated concretely in this development is
covered. -/
def pyIsDigit (c : Char) : Bool :=
  ('0' ≤ c && c ≤ '9') ||
  c == '¹' || c == '²' || c == '³' ||
  c == '⁰' || c == '⁴' || c == '⁵' || c == '⁶' || c == '⁷' || c == '⁸' || c == '⁹' ||
  ('٠' ≤ c && c ≤ '٩')

/-- Characters that count as whitespace for Python `str.split()` after the
text has been reduced to ASCII (space, tab, newline, carriage return,
vertical tab, form feed). -/
def pyIsSpace (c : Char) : Bool :=
  c == ' ' || c == '\t' || c == '\n' || c == '\x0d' || c == '\x0b' || c == '\x0c'

/-- Value of an ASCII decimal digit, `none` on any other character. -/
def asciiDigitVal (c : Char) : Option Nat :=
  if '0' ≤ c && c ≤ '9' then some (c.toNat - 48) else none

/-- Characters kept by `werkzeug`'s `_filename_ascii_strip_re` substitution:
the regex removes every character outside `[A-Za-z0-9_.-]`. -/
def isSecureKeep (c : Char) : Bool :=
  ('A' ≤ c && c ≤ 'Z') || ('a' ≤ c && c ≤ 'z') || ('0' ≤ c && c ≤ '9') ||
  c == '_' || c == '.' || c == '-'

/-- Models the composition of `unicodedata.normalize("NFKD", ·)` with
`.encode("ascii", "ignore")` applied per character: an ASCII character is
kept, an accented Latin letter decomposes to its base letter (the combining
mark is dropped by the ASCII encoding), and any other character is dropped.
The table covers the accented letters occurring in this application's data
(the municipality names of `ESCOLA_MAPA`). -/
def normalizeAscii (c : Char) : Option Char :=
  if c.toNat < 128 then some c
  else
    match c with
    | 'á' => some 'a' | 'à' => some 'a' | 'â' => some 'a' | 'ã' => some 'a' | 'ä' => some 'a'
    | 'é' => some 'e' | 'è' => some 'e' | 'ê' => some 'e' | 'ë' => some 'e'
    | 'í' => some 'i' | 'ì' => some 'i' | 'î' => some 'i' | 'ï' => some 'i'
    | 'ó' => some 'o' | 'ò' => some 'o' | 'ô' => some 'o' | 'õ' => some 'o' | 'ö' => some 'o'
    | 'ú' => some 'u' | 'ù' => some 'u' | 'û' => some 'u' | 'ü' => some 'u'
    | 'ç' => some 'c' | 'ñ' => some 'n'
    | 'Á' => some 'A' | 'À' => some 'A' | 'Â' => some 'A' | 'Ã' => some 'A' | 'Ä' => some 'A'
    | 'É' => some 'E' | 'È' => some 'E' | 'Ê' => some 'E' | 'Ë' => some 'E'
    | 'Í' => some 'I' | 'Ì' => some 'I' | 'Î' => some 'I' | 'Ï' => some 'I'
    | 'Ó' => some 'O' | 'Ò' => some 'O' | 'Ô' => some 'O' | 'Õ' => some 'O' | 'Ö' => some 'O'
    | 'Ú' => some 'U' | 'Ù' => some 'U' | 'Û' => some 'U' | 'Ü' => some 'U'
    | 'Ç' => some 'C' | 'Ñ' => some 'N'
    | _ => none

/-- Python `str.strip(chars)` on a character list: removes characters of
`bad` from both ends. -/
def stripChars (bad : List Char) (l : List Char) : List Char :=
  ((l.dropWhile (· ∈ bad)).reverse.dropWhile (· ∈ bad)).reverse

/-- Python `str.split()` (no separator argument) on a character list: cut at
every whitespace character and discard the empty pieces, which is exactly a
split on runs of whitespace. -/
def pySplitWs (l : List Char) : List (List Char) :=
  (l.foldr
    (fun c acc =>
      if pyIsSpace c then [] :: acc
      else
        match acc with
        | [] => [[c]]
        | w :: ws => (c :: w) :: ws)
    []).filter (fun w => !w.isEmpty)

/-- Embeds `werkzeug.utils.secure_filename` (POSIX: `os.sep = '/'`,
`os.path.altsep = None`, not Windows): NFKD-normalize and reduce to ASCII,
replace the path separator by a space, split on whitespace and re-join with
`_`, delete every character outside `[A-Za-z0-9_.-]`, and strip `.` and `_`
from both ends.  Note the function has no fallback for an empty result. -/
def secure_filename (s : String) : String :=
  let ascii := s.data.filterMap normalizeAscii
  let noSep := ascii.map (fun c => if c == '/' then ' ' else c)
  let joined := List.intercalate ['_'] (pySplitWs noSep)
  let kept := joined.filter isSecureKeep
  ⟨stripChars ['.', '_'] kept⟩

/-- The final component of a path: the characters after the last `'/'`
(the whole list when there is no `'/'`). -/
def lastComponentData (l : List Char) : List Char :=
  (l.reverse.takeWhile (fun c => c != '/')).reverse

/-- String version of `lastComponentData`. -/
def lastComponent (s : String) : String :=
  ⟨lastComponentData s.data⟩

/-- Embeds `posixpath.dirname`: everything before the last `'/'`, with
trailing slashes stripped unless the result consists only of slashes. -/
def dirname (s : String) : String :=
  let head := (s.data.reverse.dropWhile (fun c => c != '/')).reverse
  if head.all (fun c => c == '/') then ⟨head⟩
  else ⟨(head.reverse.dropWhile (fun c => c == '/')).reverse⟩

/-- Whether a string's last character is `'/'`. -/
def strEndsWithSlash (a : String) : Bool :=
  a.data.getLast? == some '/'

/-- Embeds `posixpath.join` for two components: an absolute second component
replaces the first; otherwise the components are joined, inserting `'/'`
unless the first component is empty or already ends in `'/'`. -/
def pathJoin (a b : String) : String :=
  if b.data.head? == some '/' then b
  else if a == "" || strEndsWithSlash a then a ++ b
  else a ++ "/" ++ b

/-- The extension part of `os.path.splitext` restricted to a basename (a
component without `'/'`): the suffix starting at the last `'.'`, except that
leading dots of the basename never start an extension. -/
def extOfBase (base : List Char) : List Char :=
  let rest := base.dropWhile (fun c => c == '.')
  if rest.any (fun c => c == '.') then
    '.' :: (rest.reverse.takeWhile (fun c => c != '.')).reverse
  else []

/-- Embeds the extension component of `posixpath.splitext`: the extension is
computed on the part of the path after the last `'/'`. -/
def splitextExt (p : String) : String :=
  ⟨extOfBase (lastComponentData p.data)⟩

/-- Models Python `str.lower` per character for the ASCII range (the only
characters lower-cased in this development). -/
def charLower (c : Char) : Char :=
  match c with
  | 'A' => 'a' | 'B' => 'b' | 'C' => 'c' | 'D' => 'd' | 'E' => 'e' | 'F' => 'f'
  | 'G' => 'g' | 'H' => 'h' | 'I' => 'i' | 'J' => 'j' | 'K' => 'k' | 'L' => 'l'
  | 'M' => 'm' | 'N' => 'n' | 'O' => 'o' | 'P' => 'p' | 'Q' => 'q' | 'R' => 'r'
  | 'S' => 's' | 'T' => 't' | 'U' => 'u' | 'V' => 'v' | 'W' => 'w' | 'X' => 'x'
  | 'Y' => 'y' | 'Z' => 'z'
  | c => c

/-- Models Python `str.lower` (ASCII scope, see `charLower`). -/
def pyLower (s : String) : String :=
  ⟨s.data.map charLower⟩

/-- Digits of a candidate integer literal: `some` of the value when the list
is a non-empty sequence of ASCII decimal digits. -/
def natOfDigits (l : List Char) : Option Nat :=
  if l ≠ [] && l.all (fun c => '0' ≤ c && c ≤ '9') then
    some (l.foldl (fun a c => a * 10 + (c.toNat - 48)) 0)
  else none

/-- Models Python `int(str)`: strip surrounding whitespace, accept an
optional sign followed by decimal digits, `none` (a `ValueError`) otherwise.
The model is restricted to ASCII digits and whitespace and does not accept
underscore digit separators; all strings evaluated concretely in this
development are within that scope. -/
def pyInt (s : String) : Option Int :=
  let l := stripChars [' ', '\t', '\n', '\x0d', '\x0b', '\x0c'] s.data
  match l with
  | '+' :: ds => (natOfDigits ds).map (fun n => (n : Int))
  | '-' :: ds => (natOfDigits ds).map (fun n => -(n : Int))
  | ds => (natOfDigits ds).map (fun n => (n : Int))

/-- A School Directory entry: display name and municipality. -/
structure EscolaInfo where
  nome : String
  municipio : String
deriving DecidableEq, Repr

/-- The static school table `ESCOLA_MAPA` of `app.py`. -/
def ESCOLA_MAPA : List (Int × EscolaInfo) :=
  [(101, ⟨"EE Governador Modelo I", "Boa Vista"⟩),
   (102, ⟨"CE Professora Antônia Santos", "Boa Vista"⟩),
   (103, ⟨"Colégio Municipal Doutor Silva", "Caracaraí"⟩),
   (104, ⟨"Escola Estadual Simplificada A", "Rorainópolis"⟩),
   (105, ⟨"Escola Municipal Teste B", "Cantá"⟩),
   (106, ⟨"Centro de Educação Integral C", "Boa Vista"⟩),
   (107, ⟨"Escola de Fronteira XYZ", "Pacaraima"⟩)]

/-- Embeds `get_info_escola`: convert the identifier with `int(...)`
(a failed conversion is the `ValueError` branch), look the result up in
`ESCOLA_MAPA`, and fall back to the two sentinels of the source. -/
def get_info_escola (escola_id : String) : EscolaInfo :=
  match pyInt escola_id with
  | some n =>
    match ESCOLA_MAPA.find? (fun e => e.1 == n) with
    | some e => e.2
    | none => ⟨s!"ID {n} (Não encontrada)", "Desconhecido"⟩
  | none => ⟨"ID Inválido", "Desconhecido"⟩

/-- The `UPLOAD_FOLDER` configuration value. -/
def UPLOAD_FOLDER : String := "uploads/"

/-- A row of the `professor` table. -/
structure Professor where
  id : Nat
  nome : String
  cpf : String
  escola_id : Int
  caminho_foto : String
deriving DecidableEq, Repr

/-- The observable state of the application: the photo files on disk, the
municipality directories on disk, the committed rows of the `professor`
table, and the next surrogate key the database will assign. -/
structure AppState where
  files : List String
  dirs : List String
  rows : List Professor
  nextId : Nat
deriving DecidableEq, Repr

/-- The uploaded file of a request (`request.files.get('foto')`); only its
client-supplied filename is relevant to the control flow. -/
structure Foto where
  filename : String
deriving DecidableEq, Repr

/-- The form fields of a POST `/cadastro` request; `none` models an absent
field (`request.form.get` returning `None`). -/
structure RegInput where
  nome : Option String
  cpf : Option String
  escola_id : Option String
  nome_escola : Option String
  foto : Option Foto
deriving DecidableEq, Repr

/-- Python truthiness of an optional form string: `None` and `""` are falsy. -/
def truthyStr : Option String → Bool
  | none => false
  | some s => s != ""

/-- Python truthiness of an optional `FileStorage`: `None` is falsy, and a
`FileStorage` is falsy exactly when its filename is empty. -/
def truthyFoto : Option Foto → Bool
  | none => false
  | some f => f.filename != ""

/-- Outcome of `processar_cadastro`, one constructor per `return` of the
source; `success` carries the `cpf`, `nome` and `nome_escola` fields of the
JSON body. -/
inductive RegResult where
  | missingField
  | invalidCpf
  | uploadFailed
  | duplicateCpf
  | persistenceFailed
  | success (cpf : String) (nome : String) (nome_escola : Option String)
deriving DecidableEq, Repr

/-- HTTP status code attached to each `processar_cadastro` outcome. -/
def regHttpStatus : RegResult → Nat
  | .missingField => 400
  | .invalidCpf => 400
  | .uploadFailed => 500
  | .duplicateCpf => 409
  | .persistenceFailed => 500
  | .success _ _ _ => 200

/-- The municipality folder computed by the route:
`os.path.join(UPLOAD_FOLDER, secure_filename(municipio))`. -/
def resolvePasta (municipio : String) : String :=
  pathJoin UPLOAD_FOLDER (secure_filename municipio)

/-- The full storage path computed by the route:
`os.path.join(pasta_municipio, cpf + extensao)`. -/
def resolvePath (municipio cpf extensao : String) : String :=
  pathJoin (resolvePasta municipio) (cpf ++ extensao)

/-- `foto.save(path)`: the file exists afterwards (an existing file at the
same path is overwritten in place). -/
def saveFile (path : String) (files : List String) : List String :=
  if path ∈ files then files else path :: files

/-- Embeds the POST `/cadastro` route `processar_cadastro`.  `saveOk` models
whether `foto.save` succeeds (the `except` of the upload block), `commitOk`
whether `db.session.commit()` succeeds (the `except` of the database block).
The steps, in source order: required-field truthiness check, CPF format
check, extension and municipality resolution, `os.makedirs` of the
municipality folder, file save, duplicate-CPF query (deleting the
just-saved file on a hit), row construction — whose `int(escola_id)` raises
into the `except` branch when the conversion fails — and commit, with
rollback plus file deletion on failure. -/
def processar_cadastro (st : AppState) (inp : RegInput)
    (saveOk commitOk : Bool) : RegResult × AppState :=
  if !(truthyStr inp.nome && truthyStr inp.cpf && truthyStr inp.escola_id &&
       truthyFoto inp.foto) then
    (.missingField, st)
  else
    let nome := inp.nome.getD ""
    let cpf := inp.cpf.getD ""
    let escola_id := inp.escola_id.getD ""
    let fname := (inp.foto.map Foto.filename).getD ""
    if !(cpf.length == 11 && cpf.data.all pyIsDigit) then
      (.invalidCpf, st)
    else
      let extensao := pyLower (splitextExt fname)
      let info := get_info_escola escola_id
      let pasta := resolvePasta info.municipio
      let dirs1 := if pasta ∈ st.dirs then st.dirs else pasta :: st.dirs
      let caminho := resolvePath info.municipio cpf extensao
      if !saveOk then
        (.uploadFailed, { st with dirs := dirs1 })
      else
        let files1 := saveFile caminho st.files
        if st.rows.any (fun p => p.cpf == cpf) then
          (.duplicateCpf, { st with dirs := dirs1, files := files1.erase caminho })
        else
          match pyInt escola_id with
          | none =>
            (.persistenceFailed, { st with dirs := dirs1, files := files1.erase caminho })
          | some eid =>
            if commitOk then
              (.success cpf nome inp.nome_escola,
               { files := files1, dirs := dirs1,
                 rows := st.rows ++ [⟨st.nextId, nome, cpf, eid, caminho⟩],
                 nextId := st.nextId + 1 })
            else
              (.persistenceFailed, { st with dirs := dirs1, files := files1.erase caminho })

/-- Outcome of `excluir_professor`: 404 on an unknown id, a redirect to the
listing on success, 500 when the database delete fails. -/
inductive DelResult where
  | notFound
  | ok
  | persistenceFailed
deriving DecidableEq, Repr

/-- HTTP status code attached to each `excluir_professor` outcome (the
success case is the redirect to `/lista`). -/
def delHttpStatus : DelResult → Nat
  | .notFound => 404
  | .ok => 302
  | .persistenceFailed => 500

/-- Embeds the GET `/excluir/<id>` route `excluir_professor`.  `commitOk`
models whether the database delete commits.  Source order: look the row up
(`get_or_404`), delete the photo file if it exists, remove the containing
municipality directory when `os.listdir` finds it empty, then delete the
row, rolling back on failure.  Directory emptiness is modelled through the
files whose `dirname` is that directory (municipality folders contain no
subdirectories). -/
def excluir_professor (st : AppState) (professor_id : Nat)
    (commitOk : Bool) : DelResult × AppState :=
  match st.rows.find? (fun p => p.id == professor_id) with
  | none => (.notFound, st)
  | some prof =>
    let caminho := prof.caminho_foto
    let pai := dirname caminho
    let files1 := if caminho ∈ st.files then st.files.erase caminho else st.files
    let dirs1 :=
      if caminho ∈ st.files ∧ (st.files.erase caminho).all (fun f => dirname f != pai) then
        st.dirs.erase pai
      else st.dirs
    if commitOk then
      (.ok, { files := files1, dirs := dirs1,
              rows := st.rows.filter (fun p => p.id != professor_id),
              nextId := st.nextId })
    else
      (.persistenceFailed, { st with files := files1, dirs := dirs1 })

/-- An operation of the stateful HTTP surface, with its environment
nondeterminism (I/O and database success flags) made explicit. -/
inductive Op where
  | reg (inp : RegInput) (saveOk commitOk : Bool)
  | del (professor_id : Nat) (commitOk : Bool)
deriving DecidableEq, Repr

/-- State transition of one operation. -/
def step (st : AppState) : Op → AppState
  | .reg inp saveOk commitOk => (processar_cadastro st inp saveOk commitOk).2
  | .del pid commitOk => (excluir_professor st pid commitOk).2

/-- Run a sequence of operations. -/
def run (st : AppState) : List Op → AppState
  | [] => st
  | op :: ops => run (step st op) ops

/-- The state of a fresh deployment: no files, no directories, no rows. -/
def initialState : AppState := ⟨[], [], [], 1⟩

/-- `takeWhile` passes over a block whose elements all satisfy the predicate. -/
theorem takeWhile_append_of_all {p : Char → Bool} {l₁ l₂ : List Char}
    (h : ∀ c ∈ l₁, p c = true) :
    (l₁ ++ l₂).takeWhile p = l₁ ++ l₂.takeWhile p := by
  induction l₁ with
  | nil => simp
  | cons a l ih =>
    have ha : p a = true := h a (List.mem_cons_self a l)
    simp [List.takeWhile_cons, ha, ih (fun c hc => h c (List.mem_cons_of_mem a hc))]

/-- Elements of a `takeWhile` satisfy the predicate. -/
theorem prop_of_mem_takeWhile {p : Char → Bool} {l : List Char} {c : Char}
    (h : c ∈ l.takeWhile p) : p c = true := by
  induction l with
  | nil => simp at h
  | cons a l ih =>
    rw [List.takeWhile_cons] at h
    split at h
    · rcases List.mem_cons.mp h with rfl | h
      · assumption
      · exact ih h
    · simp at h

/-- `stripChars` only removes characters: membership is preserved downward. -/
theorem mem_of_mem_stripChars {bad l : List Char} {c : Char}
    (h : c ∈ stripChars bad l) : c ∈ l := by
  unfold stripChars at h
  rw [List.mem_reverse] at h
  have h1 := (List.dropWhile_sublist _).mem h
  rw [List.mem_reverse] at h1
  exact (List.dropWhile_sublist _).mem h1

/-- Every character of a `secure_filename` result lies in `[A-Za-z0-9_.-]`. -/
theorem secure_filename_keep {s : String} {c : Char}
    (h : c ∈ (secure_filename s).data) : isSecureKeep c = true := by
  have h' : c ∈ stripChars ['.', '_']
      ((List.intercalate ['_'] (pySplitWs ((s.data.filterMap normalizeAscii).map
        (fun c => if c == '/' then ' ' else c)))).filter isSecureKeep) := h
  exact List.of_mem_filter (mem_of_mem_stripChars h')

/-- The kept character class contains no path separator. -/
theorem isSecureKeep_ne_slash {c : Char} (h : isSecureKeep c = true) : c ≠ '/' := by
  rintro rfl
  exact absurd h (by decide)

/-- A character accepted by `pyIsDigit` is not the path separator. -/
theorem pyIsDigit_ne_slash {c : Char} (h : pyIsDigit c = true) : c ≠ '/' := by
  rintro rfl
  exact absurd h (by decide)

/-- Lower-casing never produces the path separator. -/
theorem charLower_ne_slash {c : Char} (h : c ≠ '/') : charLower c ≠ '/' := by
  intro hc
  apply h
  unfold charLower at hc
  split at hc <;> first | exact hc | exact absurd hc (by decide)

/-- Elements of the final path component are not the separator. -/
theorem lastComponentData_ne_slash {l : List Char} {c : Char}
    (h : c ∈ lastComponentData l) : c ≠ '/' := by
  unfold lastComponentData at h
  rw [List.mem_reverse] at h
  have := prop_of_mem_takeWhile h
  simpa using this

/-- Characters of an extension come from the basename or are the dot. -/
theorem mem_extOfBase {base : List Char} {c : Char}
    (h : c ∈ extOfBase base) : c = '.' ∨ c ∈ base := by
  simp only [extOfBase] at h
  split at h
  · rcases List.mem_cons.mp h with rfl | h2
    · exact Or.inl rfl
    · right
      rw [List.mem_reverse] at h2
      have h3 := (List.takeWhile_sublist _).mem h2
      rw [List.mem_reverse] at h3
      exact (List.dropWhile_sublist _).mem h3
  · simp at h

/-- An extension produced by `splitextExt` contains no path separator. -/
theorem splitextExt_ne_slash {f : String} {c : Char}
    (h : c ∈ (splitextExt f).data) : c ≠ '/' := by
  have h' : c ∈ extOfBase (lastComponentData f.data) := h
  rcases mem_extOfBase h' with rfl | h2
  · decide
  · exact lastComponentData_ne_slash h2

/-- Lower-casing an extension keeps it separator-free. -/
theorem pyLower_ne_slash {s : String} (h : ∀ c ∈ s.data, c ≠ '/') :
    ∀ c ∈ (pyLower s).data, c ≠ '/' := by
  intro c hc
  have h' : c ∈ s.data.map charLower := hc
  rcases List.mem_map.mp h' with ⟨a, ha, rfl⟩
  exact charLower_ne_slash (h a ha)

/-- The final component of `dir ++ '/' :: file` is `file` when `file`
contains no separator. -/
theorem lastComponentData_append {dl fl : List Char} (h : ∀ c ∈ fl, c ≠ '/') :
    lastComponentData (dl ++ '/' :: fl) = fl := by
  have hall : ∀ c ∈ fl.reverse, (c != '/') = true := by
    intro c hc
    rw [List.mem_reverse] at hc
    simpa using h c hc
  unfold lastComponentData
  rw [List.reverse_append, List.reverse_cons, List.append_assoc,
      takeWhile_append_of_all hall]
  have hstop : (['/'] ++ dl.reverse).takeWhile (fun c => c != '/') = [] := by
    rw [List.singleton_append, List.takeWhile_cons]
    simp
  rw [hstop, List.append_nil, List.reverse_reverse]

/-- A string whose character list is nonempty is not the empty string. -/
theorem ne_empty_of_data_ne_nil {s : String} (h : s ≠ "") : s.data ≠ [] := by
  intro hd
  exact h (String.ext hd)

/-- A value produced by `getLast?` is a member of the list. -/
theorem mem_of_getLast?_eq_some {l : List Char} {c : Char}
    (h : l.getLast? = some c) : c ∈ l := by
  have hmem : c ∈ l.getLast? := by rw [h]; rfl
  obtain ⟨hne, rfl⟩ := List.mem_getLast?_eq_getLast hmem
  exact List.getLast_mem hne

/-- `UPLOAD_FOLDER ++ m` is never the empty string. -/
theorem upload_append_ne_empty (m : String) : (UPLOAD_FOLDER ++ m) ≠ "" := by
  intro h
  have hlen : (UPLOAD_FOLDER ++ m).data.length = 0 := by rw [h]; rfl
  rw [String.data_append, List.length_append] at hlen
  have h8 : UPLOAD_FOLDER.data.length = 8 := rfl
  rw [h8] at hlen
  omega

/-- The municipality folder is `UPLOAD_FOLDER` followed by the sanitized
municipality: the first branch of `os.path.join` never fires because a
sanitized name cannot start with `'/'`. -/
theorem resolvePasta_eq (municipio : String) :
    resolvePasta municipio = UPLOAD_FOLDER ++ secure_filename municipio := by
  have h1 : ¬ (((secure_filename municipio).data.head? == some '/') = true) := by
    cases hm : (secure_filename municipio).data with
    | nil => simp
    | cons c l =>
      have hk : isSecureKeep c = true :=
        secure_filename_keep (by rw [hm]; exact List.mem_cons_self c l)
      have hcs : c ≠ '/' := isSecureKeep_ne_slash hk
      simp [hcs]
  unfold resolvePasta pathJoin
  rw [if_neg h1, if_pos (by decide)]

/-- When the sanitized municipality is empty, the folder collapses to the
upload root and the full path has the root as its directory part. -/
theorem resolvePath_split (municipio cpf extensao : String)
    (hne : cpf.data ≠ []) (hdig : ∀ c ∈ cpf.data, pyIsDigit c = true) :
    ∃ dl, (resolvePath municipio cpf extensao).data =
      dl ++ '/' :: (cpf.data ++ extensao.data) := by
  obtain ⟨d, ds, hcpf⟩ : ∃ d ds, cpf.data = d :: ds := by
    cases h : cpf.data with
    | nil => exact absurd h hne
    | cons d ds => exact ⟨d, ds, rfl⟩
  have hd : d ≠ '/' :=
    pyIsDigit_ne_slash (hdig d (by rw [hcpf]; exact List.mem_cons_self d ds))
  have hb : (((cpf ++ extensao).data.head? == some '/')) = false := by
    rw [String.data_append, hcpf]
    simp [hd]
  unfold resolvePath
  rw [resolvePasta_eq]
  unfold pathJoin
  rw [hb, if_neg (by simp)]
  cases hm : (secure_filename municipio).data with
  | nil =>
    have h2 : strEndsWithSlash (UPLOAD_FOLDER ++ secure_filename municipio) = true := by
      unfold strEndsWithSlash
      rw [String.data_append, hm, List.append_nil]
      rfl
    rw [h2, Bool.or_true, if_pos rfl]
    refine ⟨"uploads".data, ?_⟩
    rw [String.data_append, String.data_append, hm, List.append_nil]
    have hu : UPLOAD_FOLDER.data = "uploads".data ++ ['/'] := rfl
    rw [hu, List.append_assoc, List.singleton_append, String.data_append]
  | cons c l =>
    obtain ⟨y, hy⟩ : ∃ y, (c :: l).getLast? = some y := by
      cases hg : (c :: l).getLast? with
      | none => simp [List.getLast?_eq_none_iff] at hg
      | some y => exact ⟨y, rfl⟩
    have hymem : y ∈ (secure_filename municipio).data := by
      rw [hm]
      exact mem_of_getLast?_eq_some hy
    have hys : y ≠ '/' := isSecureKeep_ne_slash (secure_filename_keep hymem)
    have h2 : strEndsWithSlash (UPLOAD_FOLDER ++ secure_filename municipio) = false := by
      unfold strEndsWithSlash
      rw [String.data_append, List.getLast?_append, hm, hy]
      simp [Option.or, hys]
    have h3 : ((UPLOAD_FOLDER ++ secure_filename municipio) == "") = false := by
      rw [beq_eq_false_iff_ne]
      exact upload_append_ne_empty _
    rw [h2, h3, Bool.or_false, if_neg (by simp)]
    refine ⟨UPLOAD_FOLDER.data ++ (secure_filename municipio).data, ?_⟩
    rw [String.data_append, String.data_append, String.data_append]
    have hs : ("/" : String).data = ['/'] := rfl
    rw [hs, List.append_assoc, List.singleton_append, String.data_append]

/-- The final component of a computed storage path is `cpf ++ extensao`. -/
theorem lastComponent_resolvePath (municipio cpf extensao : String)
    (hne : cpf.data ≠ []) (hdig : ∀ c ∈ cpf.data, pyIsDigit c = true)
    (hext : ∀ c ∈ extensao.data, c ≠ '/') :
    (lastComponent (resolvePath municipio cpf extensao)).data =
      cpf.data ++ extensao.data := by
  obtain ⟨dl, hdl⟩ := resolvePath_split municipio cpf extensao hne hdig
  have hfl : ∀ c ∈ cpf.data ++ extensao.data, c ≠ '/' := by
    intro c hc
    rcases List.mem_append.mp hc with hc | hc
    · exact pyIsDigit_ne_slash (hdig c hc)
    · exact hext c hc
  show lastComponentData (resolvePath municipio cpf extensao).data = _
  rw [hdl, lastComponentData_append hfl]

/-- Recovering the CPF from a stored path: the first 11 characters of the
last path component. -/
theorem take11_lastComponent_resolvePath (municipio cpf extensao : String)
    (hlen : cpf.data.length = 11) (hdig : ∀ c ∈ cpf.data, pyIsDigit c = true)
    (hext : ∀ c ∈ extensao.data, c ≠ '/') :
    (lastComponent (resolvePath municipio cpf extensao)).data.take 11 = cpf.data := by
  have hne : cpf.data ≠ [] := by
    intro h
    rw [h] at hlen
    simp at hlen
  rw [lastComponent_resolvePath municipio cpf extensao hne hdig hext, ← hlen,
    List.take_left]

/-- The validation gate of `processar_cadastro`: all four required fields
truthy, and the CPF exactly 11 characters accepted by `str.isdigit`. -/
def regValid (inp : RegInput) : Bool :=
  (truthyStr inp.nome && truthyStr inp.cpf && truthyStr inp.escola_id &&
    truthyFoto inp.foto) &&
  ((inp.cpf.getD "").length == 11 && (inp.cpf.getD "").data.all pyIsDigit)

/-- The storage path a `/cadastro` request resolves to. -/
def regCaminho (inp : RegInput) : String :=
  resolvePath (get_info_escola (inp.escola_id.getD "")).municipio (inp.cpf.getD "")
    (pyLower (splitextExt ((inp.foto.map Foto.filename).getD "")))

/-- The side conditions under which an operation keeps every stored
`caminho_foto` backed by a file: a delete's database commit succeeds, and a
registration hitting the duplicate branch resolves to a path distinct from
every stored photo path (otherwise its compensating `os.remove` deletes the
existing record's photo). -/
def safeOp (st : AppState) : Op → Bool
  | .reg inp _ _ =>
    !(st.rows.any (fun p => p.cpf == inp.cpf.getD "")) ||
      st.rows.all (fun p => p.caminho_foto != regCaminho inp)
  | .del _ commitOk => commitOk

/-- A trace of operations each of which satisfies `safeOp` in the state it
runs in. -/
def SafeTrace : AppState → List Op → Prop
  | _, [] => True
  | st, op :: ops => safeOp st op = true ∧ SafeTrace (step st op) ops

/-- Well-formedness of a committed row: an 11-character `isdigit` CPF whose
stored path ends in a component starting with that CPF. -/
def rowWf (p : Professor) : Prop :=
  p.cpf.data.length = 11 ∧ (∀ c ∈ p.cpf.data, pyIsDigit c = true) ∧
  (lastComponent p.caminho_foto).data.take 11 = p.cpf.data

/-- Invariant of the application state: every row's photo path names an
existing file, every row is well formed, and CPFs are pairwise distinct. -/
def GoodState (st : AppState) : Prop :=
  (∀ p ∈ st.rows, p.caminho_foto ∈ st.files) ∧
  (∀ p ∈ st.rows, rowWf p) ∧
  st.rows.Pairwise (fun p q => p.cpf ≠ q.cpf)

/-- Two well-formed rows with the same stored path carry the same CPF. -/
theorem cpf_eq_of_path_eq {p q : Professor} (hp : rowWf p) (hq : rowWf q)
    (h : p.caminho_foto = q.caminho_foto) : p.cpf = q.cpf := by
  apply String.ext
  rw [← hp.2.2, ← hq.2.2, h]

/-- A well-formed row whose CPF differs from a request's CPF stores a path
different from the one the request resolves to. -/
theorem path_ne_of_cpf_ne {p : Professor} (hwf : rowWf p)
    (municipio cpf fname : String)
    (hlen : cpf.data.length = 11) (hdig : ∀ c ∈ cpf.data, pyIsDigit c = true)
    (hne : p.cpf ≠ cpf) :
    p.caminho_foto ≠ resolvePath municipio cpf (pyLower (splitextExt fname)) := by
  intro heq
  apply hne
  apply String.ext
  have hext : ∀ c ∈ (pyLower (splitextExt fname)).data, c ≠ '/' :=
    pyLower_ne_slash (fun c hc => splitextExt_ne_slash hc)
  have h1 := take11_lastComponent_resolvePath municipio cpf _ hlen hdig hext
  rw [← heq, hwf.2.2] at h1
  exact h1

/-- Saving a file preserves every existing file. -/
theorem mem_saveFile_of_mem {a path : String} {files : List String}
    (h : a ∈ files) : a ∈ saveFile path files := by
  unfold saveFile
  split
  · exact h
  · exact List.mem_cons_of_mem path h

/-- After saving, the saved path is on disk. -/
theorem mem_saveFile_self (path : String) (files : List String) :
    path ∈ saveFile path files := by
  unfold saveFile
  split
  · assumption
  · exact List.mem_cons_self path files

/-- One safe operation preserves the state invariant. -/
theorem goodState_step {st : AppState} {op : Op}
    (hg : GoodState st) (hs : safeOp st op = true) : GoodState (step st op) := by
  obtain ⟨hmem, hwf, hpw⟩ := hg
  have hsymm : Symmetric (fun p q : Professor => p.cpf ≠ q.cpf) :=
    fun a b hab h => hab h.symm
  cases op with
  | del pid commitOk =>
    have hc : commitOk = true := hs
    subst hc
    show GoodState (excluir_professor st pid true).2
    cases hfind : st.rows.find? (fun p => p.id == pid) with
    | none =>
      simp only [excluir_professor, hfind]
      exact ⟨hmem, hwf, hpw⟩
    | some prof =>
      have hpmem : prof ∈ st.rows := List.mem_of_find?_eq_some hfind
      have hpid : prof.id = pid := by
        have := List.find?_some hfind
        simpa using this
      simp only [excluir_professor, hfind, if_pos]
      refine ⟨?_, ?_, ?_⟩
      · intro q hq
        have hq1 : q ∈ st.rows := List.mem_of_mem_filter hq
        have hqid : q.id ≠ pid := by
          have := List.of_mem_filter hq
          simpa using this
        have hqprof : q ≠ prof := fun h => hqid (h ▸ hpid)
        have hqpath : q.caminho_foto ≠ prof.caminho_foto := by
          intro h
          have hcpf := cpf_eq_of_path_eq (hwf q hq1) (hwf prof hpmem) h
          exact List.Pairwise.forall hsymm hpw hq1 hpmem hqprof hcpf
        show q.caminho_foto ∈
          (if prof.caminho_foto ∈ st.files then st.files.erase prof.caminho_foto
           else st.files)
        split
        · exact (List.mem_erase_of_ne hqpath).mpr (hmem q hq1)
        · exact hmem q hq1
      · intro q hq
        exact hwf q (List.mem_of_mem_filter hq)
      · exact List.Pairwise.sublist (List.filter_sublist _) hpw
  | reg inp saveOk commitOk =>
    show GoodState (processar_cadastro st inp saveOk commitOk).2
    simp only [safeOp] at hs
    simp only [processar_cadastro]
    split
    next => exact ⟨hmem, hwf, hpw⟩
    next hfields =>
      split
      next => exact ⟨hmem, hwf, hpw⟩
      next hcpf =>
        have hcpfT : ((inp.cpf.getD "").length == 11 &&
            (inp.cpf.getD "").data.all pyIsDigit) = true := by
          revert hcpf
          cases ((inp.cpf.getD "").length == 11 && (inp.cpf.getD "").data.all pyIsDigit) <;>
            simp
        rw [Bool.and_eq_true] at hcpfT
        have hlen : (inp.cpf.getD "").data.length = 11 := by
          have h2 : (inp.cpf.getD "").length = 11 := by simpa using hcpfT.1
          exact h2
        have hdig : ∀ c ∈ (inp.cpf.getD "").data, pyIsDigit c = true :=
          List.all_eq_true.mp hcpfT.2
        split
        next => exact ⟨hmem, hwf, hpw⟩
        next hsave =>
          split
          next hdup =>
            have hall : st.rows.all
                (fun p => p.caminho_foto != regCaminho inp) = true := by
              rw [hdup] at hs
              simpa using hs
            refine ⟨?_, hwf, hpw⟩
            intro q hq
            have hne : q.caminho_foto ≠ regCaminho inp := by
              have := List.all_eq_true.mp hall q hq
              simpa using this
            exact (List.mem_erase_of_ne hne).mpr (mem_saveFile_of_mem (hmem q hq))
          next hndup =>
            have hnd : ∀ q ∈ st.rows, q.cpf ≠ inp.cpf.getD "" := by
              intro q hq heq
              apply hndup
              rw [List.any_eq_true]
              exact ⟨q, hq, by simp [heq]⟩
            have hpathne : ∀ q ∈ st.rows, q.caminho_foto ≠
                resolvePath (get_info_escola (inp.escola_id.getD "")).municipio
                  (inp.cpf.getD "")
                  (pyLower (splitextExt ((inp.foto.map Foto.filename).getD ""))) :=
              fun q hq => path_ne_of_cpf_ne (hwf q hq) _ _ _ hlen hdig (hnd q hq)
            split
            next =>
              refine ⟨?_, hwf, hpw⟩
              intro q hq
              exact (List.mem_erase_of_ne (hpathne q hq)).mpr
                (mem_saveFile_of_mem (hmem q hq))
            next eid heq =>
              split
              next =>
                refine ⟨?_, ?_, ?_⟩
                · intro q hq
                  rcases List.mem_append.mp hq with hq1 | hq1
                  · exact mem_saveFile_of_mem (hmem q hq1)
                  · have hq2 := List.mem_singleton.mp hq1
                    subst hq2
                    exact mem_saveFile_self _ _
                · intro q hq
                  rcases List.mem_append.mp hq with hq1 | hq1
                  · exact hwf q hq1
                  · have hq2 := List.mem_singleton.mp hq1
                    subst hq2
                    refine ⟨hlen, hdig, ?_⟩
                    exact take11_lastComponent_resolvePath _ _ _ hlen hdig
                      (pyLower_ne_slash (fun c hc => splitextExt_ne_slash hc))
                · rw [List.pairwise_append]
                  refine ⟨hpw, List.pairwise_singleton _ _, ?_⟩
                  intro a ha b hb
                  have hb2 := List.mem_singleton.mp hb
                  subst hb2
                  exact hnd a ha
              next =>
                refine ⟨?_, hwf, hpw⟩
                intro q hq
                exact (List.mem_erase_of_ne (hpathne q hq)).mpr
                  (mem_saveFile_of_mem (hmem q hq))

/-- A safe trace from a good state ends in a good state. -/
theorem goodState_run {st : AppState} {ops : List Op}
    (hg : GoodState st) (hs : SafeTrace st ops) : GoodState (run st ops) := by
  induction ops generalizing st with
  | nil => exact hg
  | cons op ops ih =>
    obtain ⟨h1, h2⟩ := hs
    exact ih (goodState_step hg h1) h2

/-- The fresh deployment state satisfies the invariant. -/
theorem goodState_initial : GoodState initialState :=
  ⟨fun p hp => absurd hp (List.not_mem_nil p),
   fun p hp => absurd hp (List.not_mem_nil p),
   List.Pairwise.nil⟩

/-- The registration request of the specification's scenario: name
`"Ana Silva"`, CPF `"12345678901"`, school `101`, and an uploaded photo
with the given client-side filename. -/
def anaInput (fname : String) : RegInput :=
  ⟨some "Ana Silva", some "12345678901", some "101",
   some "EE Governador Modelo I", some ⟨fname⟩⟩

/-- Registering Ana and then replaying the identical registration. -/
def dupTrace : List Op :=
  [Op.reg (anaInput "foto.jpg") true true, Op.reg (anaInput "foto.jpg") true true]

/-- C1: registering CPF `12345678901` at school 101 with a `.jpg` photo and
then registering the same CPF at the same school with the same extension
returns the duplicate error (409), but — because the second upload
overwrites the first record's photo in place before the duplicate check —
the compensating `os.remove` deletes the surviving record's photo: one row
and zero files remain, not one row and one file. -/
theorem duplicate_register_deletes_original_photo :
    (processar_cadastro initialState (anaInput "foto.jpg") true true).1 =
      RegResult.success "12345678901" "Ana Silva" (some "EE Governador Modelo I") ∧
    ((processar_cadastro initialState (anaInput "foto.jpg") true true).2).files =
      ["uploads/Boa_Vista/12345678901.jpg"] ∧
    (processar_cadastro
        ((processar_cadastro initialState (anaInput "foto.jpg") true true).2)
        (anaInput "foto.jpg") true true).1 = RegResult.duplicateCpf ∧
    regHttpStatus RegResult.duplicateCpf = 409 ∧
    (processar_cadastro
        ((processar_cadastro initialState (anaInput "foto.jpg") true true).2)
        (anaInput "foto.jpg") true true).2 =
      { files := [], dirs := ["uploads/Boa_Vista"],
        rows := [⟨1, "Ana Silva", "12345678901", 101,
                  "uploads/Boa_Vista/12345678901.jpg"⟩],
        nextId := 2 } :=
  ⟨rfl, rfl, rfl, rfl, rfl⟩

/-- C2 counterexample: after Ana's registration followed by a replay of the
identical registration (rejected as duplicate), the surviving row's
`caminho_foto` names no existing file — the claimed invariant fails on this
reachable state. -/
theorem dangling_caminho_foto_after_duplicate :
    (run initialState dupTrace).rows =
      [⟨1, "Ana Silva", "12345678901", 101,
        "uploads/Boa_Vista/12345678901.jpg"⟩] ∧
    "uploads/Boa_Vista/12345678901.jpg" ∉ (run initialState dupTrace).files :=
  ⟨rfl, by decide⟩

/-- C2 (amended): in every state reachable from a fresh deployment by
register and delete operations in which every delete's database commit
succeeds and no duplicate-CPF registration resolves to an already-stored
photo path, every committed row's `caminho_foto` names an existing file. -/
theorem caminho_foto_always_on_disk (ops : List Op)
    (hs : SafeTrace initialState ops) :
    ∀ p ∈ (run initialState ops).rows,
      p.caminho_foto ∈ (run initialState ops).files :=
  (goodState_run goodState_initial hs).1

/-- Witness for C2: a concrete safe trace (one successful registration)
whose final state satisfies the invariant. -/
theorem caminho_foto_always_on_disk_witness :
    SafeTrace initialState [Op.reg (anaInput "foto.jpg") true true] ∧
    ∀ p ∈ (run initialState [Op.reg (anaInput "foto.jpg") true true]).rows,
      p.caminho_foto ∈
        (run initialState [Op.reg (anaInput "foto.jpg") true true]).files :=
  ⟨⟨rfl, trivial⟩, caminho_foto_always_on_disk _ ⟨rfl, trivial⟩⟩

/-- C3 counterexample: the stored path of Ana's photo is
`uploads/Boa_Vista/12345678901.jpg` — `secure_filename` replaces the space
of `"Boa Vista"` with an underscore — so no file is stored at the claimed
path `uploads/Boa Vista/12345678901.jpg`. -/
theorem ana_path_has_underscore_not_space :
    (processar_cadastro initialState (anaInput "foto.jpg") true true).2.files =
      ["uploads/Boa_Vista/12345678901.jpg"] ∧
    "uploads/Boa Vista/12345678901.jpg" ∉
      (processar_cadastro initialState (anaInput "foto.jpg") true true).2.files :=
  ⟨rfl, by decide⟩

/-- C3 (amended): registering `"Ana Silva"`, CPF `"12345678901"`, school 101
(municipality `"Boa Vista"`) with any uploaded photo succeeds with status
200, creates the row with `escola_id = 101`, and stores the photo at
`uploads/Boa_Vista/12345678901.<ext>` — the municipality folder is the
`secure_filename` sanitization of `"Boa Vista"`, with the space replaced by
an underscore. -/
theorem ana_registration_path (fname : String) (h : fname ≠ "") :
    processar_cadastro initialState (anaInput fname) true true =
      (RegResult.success "12345678901" "Ana Silva" (some "EE Governador Modelo I"),
       { files := ["uploads/Boa_Vista/12345678901" ++ pyLower (splitextExt fname)],
         dirs := ["uploads/Boa_Vista"],
         rows := [⟨1, "Ana Silva", "12345678901", 101,
                   "uploads/Boa_Vista/12345678901" ++ pyLower (splitextExt fname)⟩],
         nextId := 2 }) ∧
    regHttpStatus
      (processar_cadastro initialState (anaInput fname) true true).1 = 200 := by
  have hb : (fname != "") = true := bne_iff_ne.mpr h
  have hmain : processar_cadastro initialState (anaInput fname) true true =
      (RegResult.success "12345678901" "Ana Silva" (some "EE Governador Modelo I"),
       { files := ["uploads/Boa_Vista/12345678901" ++ pyLower (splitextExt fname)],
         dirs := ["uploads/Boa_Vista"],
         rows := [⟨1, "Ana Silva", "12345678901", 101,
                   "uploads/Boa_Vista/12345678901" ++ pyLower (splitextExt fname)⟩],
         nextId := 2 }) := by
    simp only [processar_cadastro, anaInput, truthyStr, truthyFoto, hb]
    rfl
  exact ⟨hmain, by rw [hmain]; rfl⟩

/-- Witness for C3 (amended) at the concrete filename `foto.jpg`. -/
theorem ana_registration_path_witness :
    ("foto.jpg" : String) ≠ "" ∧
    processar_cadastro initialState (anaInput "foto.jpg") true true =
      (RegResult.success "12345678901" "Ana Silva" (some "EE Governador Modelo I"),
       { files := ["uploads/Boa_Vista/12345678901.jpg"],
         dirs := ["uploads/Boa_Vista"],
         rows := [⟨1, "Ana Silva", "12345678901", 101,
                   "uploads/Boa_Vista/12345678901.jpg"⟩],
         nextId := 2 }) :=
  ⟨by decide, (ana_registration_path "foto.jpg" (by decide)).1⟩

/-- C4 counterexample: for the municipality string `"."` the sanitized
result is empty and the route's path computation applies no fallback — the
file path collapses into the upload root with no municipality segment at
all, instead of using a `"_"` folder. -/
theorem resolver_empty_municipio_no_fallback :
    secure_filename "." = "" ∧
    resolvePath "." "12345678901" ".jpg" = "uploads/12345678901.jpg" ∧
    resolvePath "." "12345678901" ".jpg" ≠
      pathJoin (pathJoin UPLOAD_FOLDER "_") ("12345678901" ++ ".jpg") :=
  ⟨rfl, rfl, by decide⟩

/-- Every municipality the School Directory can hand to the path
computation: the six distinct municipalities of the static table plus the
sentinel `"Desconhecido"`. -/
theorem municipio_mem (s : String) :
    (get_info_escola s).municipio ∈
      ["Boa Vista", "Caracaraí", "Rorainópolis", "Cantá", "Pacaraima",
       "Desconhecido"] := by
  cases hp : pyInt s with
  | none =>
    simp only [get_info_escola, hp]
    decide
  | some n =>
    cases hf : ESCOLA_MAPA.find? (fun e => e.1 == n) with
    | none =>
      simp only [get_info_escola, hp, hf]
      decide
    | some e =>
      have he : e ∈ ESCOLA_MAPA := List.mem_of_find?_eq_some hf
      have hall : ∀ x ∈ ESCOLA_MAPA, x.2.municipio ∈
          ["Boa Vista", "Caracaraí", "Rorainópolis", "Cantá", "Pacaraima",
           "Desconhecido"] := by decide
      simp only [get_info_escola, hp, hf]
      exact hall e he

/-- Every municipality the School Directory can return sanitizes to a
non-empty folder name. -/
theorem secure_municipio_nonempty (s : String) :
    secure_filename (get_info_escola s).municipio ≠ "" := by
  have h := municipio_mem s
  simp only [List.mem_cons, List.not_mem_nil, or_false] at h
  rcases h with h | h | h | h | h | h <;> rw [h] <;> decide

/-- When the sanitized municipality is non-empty, the route's path is
exactly `uploads/` ++ municipality folder ++ `/` ++ filename. -/
theorem resolvePath_of_municipio_nonempty (municipio cpf extensao : String)
    (hm : secure_filename municipio ≠ "")
    (hb : ((cpf ++ extensao).data.head? == some '/') = false) :
    resolvePath municipio cpf extensao =
      UPLOAD_FOLDER ++ secure_filename municipio ++ "/" ++ (cpf ++ extensao) := by
  unfold resolvePath
  rw [resolvePasta_eq]
  unfold pathJoin
  rw [hb, if_neg (by simp)]
  have hmd : (secure_filename municipio).data ≠ [] := ne_empty_of_data_ne_nil hm
  obtain ⟨c, l, hmdata⟩ : ∃ c l, (secure_filename municipio).data = c :: l := by
    cases hx : (secure_filename municipio).data with
    | nil => exact absurd hx hmd
    | cons c l => exact ⟨c, l, rfl⟩
  obtain ⟨y, hy⟩ : ∃ y, (c :: l).getLast? = some y := by
    cases hg : (c :: l).getLast? with
    | none => simp [List.getLast?_eq_none_iff] at hg
    | some y => exact ⟨y, rfl⟩
  have hymem : y ∈ (secure_filename municipio).data := by
    rw [hmdata]
    exact mem_of_getLast?_eq_some hy
  have hys : y ≠ '/' := isSecureKeep_ne_slash (secure_filename_keep hymem)
  have h2 : strEndsWithSlash (UPLOAD_FOLDER ++ secure_filename municipio) = false := by
    unfold strEndsWithSlash
    rw [String.data_append, List.getLast?_append, hmdata, hy]
    simp [Option.or, hys]
  have h3 : ((UPLOAD_FOLDER ++ secure_filename municipio) == "") = false := by
    rw [beq_eq_false_iff_ne]
    exact upload_append_ne_empty _
  rw [h2, h3, Bool.or_false, if_neg (by simp)]

/-- C4 (amended): the route sanitizes the municipality with
`secure_filename`, which applies no fallback and can yield an empty segment
in general; however, every municipality the School Directory actually
supplies (the six table municipalities and the `"Desconhecido"` sentinel)
sanitizes to a non-empty folder name, so for every request passing CPF
validation the stored path has the form
`uploads/<sanitizedMunicipality>/<nationalId><extension>` with a non-empty
municipality segment. -/
theorem resolver_path_shape (escola_id cpf extensao : String)
    (hlen : cpf.data.length = 11)
    (hdig : ∀ c ∈ cpf.data, pyIsDigit c = true) :
    secure_filename (get_info_escola escola_id).municipio ≠ "" ∧
    resolvePath (get_info_escola escola_id).municipio cpf extensao =
      UPLOAD_FOLDER ++ secure_filename (get_info_escola escola_id).municipio ++
        "/" ++ (cpf ++ extensao) := by
  have hm := secure_municipio_nonempty escola_id
  refine ⟨hm, ?_⟩
  obtain ⟨d, ds, hcpf⟩ : ∃ d ds, cpf.data = d :: ds := by
    cases hx : cpf.data with
    | nil => rw [hx] at hlen; simp at hlen
    | cons d ds => exact ⟨d, ds, rfl⟩
  have hd : d ≠ '/' :=
    pyIsDigit_ne_slash (hdig d (by rw [hcpf]; exact List.mem_cons_self d ds))
  have hb : ((cpf ++ extensao).data.head? == some '/') = false := by
    rw [String.data_append, hcpf]
    simp [hd]
  exact resolvePath_of_municipio_nonempty _ cpf extensao hm hb

/-- Witness for C4 (amended): school 101 resolves to municipality
`"Boa Vista"`, sanitized to the non-empty `"Boa_Vista"`, and the path takes
the stated shape. -/
theorem resolver_path_shape_witness :
    secure_filename (get_info_escola "101").municipio ≠ "" ∧
    resolvePath (get_info_escola "101").municipio "12345678901" ".jpg" =
      UPLOAD_FOLDER ++ secure_filename (get_info_escola "101").municipio ++
        "/" ++ ("12345678901" ++ ".jpg") :=
  resolver_path_shape "101" "12345678901" ".jpg" (by decide) (by decide)

/-- C5 counterexample: the CPF `"¹2345678901"` is 11 characters long and its
first character `¹` (superscript one) is not a decimal digit, yet Python's
`str.isdigit` accepts it, so the registration is not rejected with the
invalid-CPF error — it proceeds and succeeds. -/
theorem superscript_cpf_passes_validation :
    ¬ (∀ c ∈ ("¹2345678901" : String).data, '0' ≤ c ∧ c ≤ '9') ∧
    ("¹2345678901" : String).length = 11 ∧
    (processar_cadastro initialState
        ⟨some "Ana Silva", some "¹2345678901", some "101",
         some "EE Governador Modelo I", some ⟨"foto.jpg"⟩⟩ true true).1 =
      RegResult.success "¹2345678901" "Ana Silva" (some "EE Governador Modelo I") :=
  ⟨by decide, by decide, rfl⟩

/-- C5 (amended): when all required fields are present but the CPF is not
exactly 11 characters all accepted by Python's `str.isdigit` — a predicate
that admits, besides the decimal digits, other Unicode digit characters
such as superscripts — the route returns the invalid-CPF error (400) with
no side effect: the state is returned unchanged, so no file is written and
no row is created. -/
theorem invalid_cpf_rejected_no_side_effect (st : AppState) (inp : RegInput)
    (saveOk commitOk : Bool)
    (hfields : (truthyStr inp.nome && truthyStr inp.cpf &&
      truthyStr inp.escola_id && truthyFoto inp.foto) = true)
    (hcpf : ¬ ((inp.cpf.getD "").length = 11 ∧
      ∀ c ∈ (inp.cpf.getD "").data, pyIsDigit c = true)) :
    processar_cadastro st inp saveOk commitOk = (RegResult.invalidCpf, st) ∧
    regHttpStatus RegResult.invalidCpf = 400 := by
  have h2 : ((inp.cpf.getD "").length == 11 &&
      (inp.cpf.getD "").data.all pyIsDigit) = false := by
    cases hx : ((inp.cpf.getD "").length == 11 &&
        (inp.cpf.getD "").data.all pyIsDigit) with
    | false => rfl
    | true =>
      rw [Bool.and_eq_true] at hx
      exact absurd ⟨by simpa using hx.1, List.all_eq_true.mp hx.2⟩ hcpf
  constructor
  · simp only [processar_cadastro, hfields, h2]
    rfl
  · rfl

/-- Witness for C5 (amended): the three-character CPF `"123"` is rejected
with 400 and the state is untouched. -/
theorem invalid_cpf_rejected_no_side_effect_witness :
    (truthyStr (anaInput "foto.jpg").nome && truthyStr (some "123") &&
      truthyStr (anaInput "foto.jpg").escola_id &&
      truthyFoto (anaInput "foto.jpg").foto) = true ∧
    processar_cadastro initialState
      ⟨some "Ana Silva", some "123", some "101",
       some "EE Governador Modelo I", some ⟨"foto.jpg"⟩⟩ true true =
      (RegResult.invalidCpf, initialState) :=
  ⟨rfl,
   (invalid_cpf_rejected_no_side_effect initialState
     ⟨some "Ana Silva", some "123", some "101",
      some "EE Governador Modelo I", some ⟨"foto.jpg"⟩⟩ true true rfl
     (by intro h; exact absurd h.1 (by decide))).1⟩

/-- Saving and then deleting a path leaves it off the disk, provided the
file listing had no duplicates. -/
theorem not_mem_erase_saveFile {path : String} {files : List String}
    (h : files.Nodup) : path ∉ (saveFile path files).erase path := by
  have hnd : (saveFile path files).Nodup := by
    unfold saveFile
    split
    · exact h
    · exact List.nodup_cons.mpr ⟨by assumption, h⟩
  intro hmem
  rw [List.Nodup.mem_erase_iff hnd] at hmem
  exact hmem.1 rfl

/-- Saving and then deleting a path adds no file: everything left was
already on disk. -/
theorem erase_saveFile_subset {path f : String} {files : List String}
    (h : f ∈ (saveFile path files).erase path) : f ∈ files := by
  unfold saveFile at h
  split at h
  · exact List.mem_of_mem_erase h
  · rw [List.erase_cons_head] at h
    exact h

/-- C6: when the photo file has been written (`saveOk`) and the row insert's
commit fails, the route rolls the transaction back, deletes the just-written
file, and returns `persistenceFailed` (500): the rows are unchanged, the
resolved path is not on disk afterwards, and no file exists that did not
exist before. -/
theorem persistence_failure_rolls_back (st : AppState) (inp : RegInput)
    (hvalid : regValid inp = true)
    (hndup : st.rows.all (fun p => p.cpf != inp.cpf.getD "") = true)
    (hnodup : st.files.Nodup) :
    (processar_cadastro st inp true false).1 = RegResult.persistenceFailed ∧
    regHttpStatus (processar_cadastro st inp true false).1 = 500 ∧
    (processar_cadastro st inp true false).2.rows = st.rows ∧
    regCaminho inp ∉ (processar_cadastro st inp true false).2.files ∧
    ∀ f ∈ (processar_cadastro st inp true false).2.files, f ∈ st.files := by
  simp only [regValid, Bool.and_eq_true] at hvalid
  obtain ⟨hfT, hcT⟩ := hvalid
  have hany : (st.rows.any fun p => p.cpf == inp.cpf.getD "") = false := by
    rw [List.any_eq_false]
    intro q hq
    have := List.all_eq_true.mp hndup q hq
    simpa using this
  have hred : processar_cadastro st inp true false =
      (RegResult.persistenceFailed,
       { st with
          dirs := if resolvePasta (get_info_escola (inp.escola_id.getD "")).municipio
              ∈ st.dirs then st.dirs
            else resolvePasta (get_info_escola (inp.escola_id.getD "")).municipio
              :: st.dirs,
          files := (saveFile (regCaminho inp) st.files).erase (regCaminho inp) }) := by
    cases hp : pyInt (inp.escola_id.getD "") with
    | none => simp only [processar_cadastro, hfT, hcT, hany, hp]; rfl
    | some eid => simp only [processar_cadastro, hfT, hcT, hany, hp]; rfl
  rw [hred]
  exact ⟨rfl, rfl, rfl, not_mem_erase_saveFile hnodup,
    fun f hf => erase_saveFile_subset hf⟩

/-- Witness for C6: Ana's registration against a fresh deployment with a
failing database commit. -/
theorem persistence_failure_rolls_back_witness :
    regValid (anaInput "foto.jpg") = true ∧
    (processar_cadastro initialState (anaInput "foto.jpg") true false).1 =
      RegResult.persistenceFailed ∧
    (processar_cadastro initialState (anaInput "foto.jpg") true false).2.rows = [] ∧
    regCaminho (anaInput "foto.jpg") ∉
      (processar_cadastro initialState (anaInput "foto.jpg") true false).2.files :=
  ⟨rfl,
   (persistence_failure_rolls_back initialState (anaInput "foto.jpg") rfl rfl
     List.nodup_nil).1,
   (persistence_failure_rolls_back initialState (anaInput "foto.jpg") rfl rfl
     List.nodup_nil).2.2.1,
   (persistence_failure_rolls_back initialState (anaInput "foto.jpg") rfl rfl
     List.nodup_nil).2.2.2.1⟩

/-- C7: deleting an existing record whose photo file is on disk succeeds
(redirect), removes exactly that file, and removes the containing
municipality directory precisely when no remaining file lives in it:
deleting the last photo of a municipality prunes the folder, while a
remaining sibling file keeps the folder (with duplicate-free directory
bookkeeping). -/
theorem delete_prunes_empty_municipio_dir (st : AppState) (pid : Nat)
    (prof : Professor)
    (hfind : st.rows.find? (fun p => p.id == pid) = some prof)
    (hfile : prof.caminho_foto ∈ st.files)
    (hnd : st.dirs.Nodup) :
    (excluir_professor st pid true).1 = DelResult.ok ∧
    (excluir_professor st pid true).2.files = st.files.erase prof.caminho_foto ∧
    (dirname prof.caminho_foto ∈ (excluir_professor st pid true).2.dirs ↔
      (dirname prof.caminho_foto ∈ st.dirs ∧
       ∃ f ∈ st.files.erase prof.caminho_foto,
         dirname f = dirname prof.caminho_foto)) := by
  simp only [excluir_professor, hfind]
  refine ⟨rfl, ?_, ?_⟩
  · show (if prof.caminho_foto ∈ st.files then st.files.erase prof.caminho_foto
      else st.files) = st.files.erase prof.caminho_foto
    rw [if_pos hfile]
  · by_cases hall : ((st.files.erase prof.caminho_foto).all
        (fun f => dirname f != dirname prof.caminho_foto)) = true
    · show dirname prof.caminho_foto ∈
        (if prof.caminho_foto ∈ st.files ∧ _ then
          st.dirs.erase (dirname prof.caminho_foto) else st.dirs) ↔ _
      rw [if_pos ⟨hfile, hall⟩]
      constructor
      · intro hmem2
        rw [List.Nodup.mem_erase_iff hnd] at hmem2
        exact absurd rfl hmem2.1
      · rintro ⟨h1, f, hf, hdf⟩
        have := List.all_eq_true.mp hall f hf
        rw [hdf] at this
        simp at this
    · show dirname prof.caminho_foto ∈
        (if prof.caminho_foto ∈ st.files ∧ _ then
          st.dirs.erase (dirname prof.caminho_foto) else st.dirs) ↔ _
      rw [if_neg (fun hc => hall hc.2)]
      have hex : ∃ f ∈ st.files.erase prof.caminho_foto,
          dirname f = dirname prof.caminho_foto := by
        have hfalse : ((st.files.erase prof.caminho_foto).all
            (fun f => dirname f != dirname prof.caminho_foto)) = false := by
          cases hx : ((st.files.erase prof.caminho_foto).all
              (fun f => dirname f != dirname prof.caminho_foto)) with
          | false => rfl
          | true => exact absurd hx hall
        obtain ⟨f, hf, hp⟩ := List.all_eq_false.mp hfalse
        refine ⟨f, hf, ?_⟩
        have : (dirname f != dirname prof.caminho_foto) = false := by
          cases hy : (dirname f != dirname prof.caminho_foto) with
          | false => rfl
          | true => exact absurd hy hp
        simpa using this
      exact ⟨fun h1 => ⟨h1, hex⟩, fun h1 => h1.1⟩

/-- Witness for C7: after Ana's registration, deleting record 1 removes the
file and prunes the now-empty `uploads/Boa_Vista` folder. -/
theorem delete_prunes_empty_municipio_dir_witness :
    ((processar_cadastro initialState (anaInput "foto.jpg") true true).2.rows.find?
      (fun p => p.id == 1) =
      some ⟨1, "Ana Silva", "12345678901", 101,
            "uploads/Boa_Vista/12345678901.jpg"⟩) ∧
    (excluir_professor
      (processar_cadastro initialState (anaInput "foto.jpg") true true).2 1 true).1 =
      DelResult.ok ∧
    (dirname ("uploads/Boa_Vista/12345678901.jpg" : String) ∈
      (excluir_professor
        (processar_cadastro initialState (anaInput "foto.jpg") true true).2
        1 true).2.dirs ↔
      (dirname ("uploads/Boa_Vista/12345678901.jpg" : String) ∈
        (processar_cadastro initialState (anaInput "foto.jpg") true true).2.dirs ∧
       ∃ f ∈ (processar_cadastro initialState
          (anaInput "foto.jpg") true true).2.files.erase
            "uploads/Boa_Vista/12345678901.jpg",
         dirname f = dirname ("uploads/Boa_Vista/12345678901.jpg" : String))) :=
  ⟨rfl,
   (delete_prunes_empty_municipio_dir
     (processar_cadastro initialState (anaInput "foto.jpg") true true).2 1
     ⟨1, "Ana Silva", "12345678901", 101, "uploads/Boa_Vista/12345678901.jpg"⟩
     rfl (by decide) (by decide)).1,
   (delete_prunes_empty_municipio_dir
     (processar_cadastro initialState (anaInput "foto.jpg") true true).2 1
     ⟨1, "Ana Silva", "12345678901", 101, "uploads/Boa_Vista/12345678901.jpg"⟩
     rfl (by decide) (by decide)).2.2⟩

/-- C8: the School Directory lookup is total — being a Lean function it
returns on every input string — and never signals an error: an identifier
`int(...)` cannot parse yields the sentinel `⟨"ID Inválido", "Desconhecido"⟩`
(the source's wording of "Invalid ID"/"Unknown"), a parseable identifier
absent from the table yields `⟨"ID <id> (Não encontrada)", "Desconhecido"⟩`
("ID <id> (not found)"/"Unknown"), and in every case the returned
municipality is one of the six table municipalities or `"Desconhecido"`,
hence non-empty and usable by the path computation. -/
theorem get_info_escola_total (s : String) :
    (pyInt s = none → get_info_escola s = ⟨"ID Inválido", "Desconhecido"⟩) ∧
    (∀ n : Int, pyInt s = some n →
      ESCOLA_MAPA.find? (fun e => e.1 == n) = none →
      get_info_escola s = ⟨s!"ID {n} (Não encontrada)", "Desconhecido"⟩) ∧
    (get_info_escola s).municipio ≠ "" := by
  refine ⟨?_, ?_, ?_⟩
  · intro h
    simp only [get_info_escola, h]
  · intro n h hf
    simp only [get_info_escola, h, hf]
  · have h := municipio_mem s
    simp only [List.mem_cons, List.not_mem_nil, or_false] at h
    rcases h with h | h | h | h | h | h <;> rw [h] <;> decide

/-- Witness for C8: the unparseable identifier `"abc"` and the absent
identifier `9999` both produce their sentinels. -/
theorem get_info_escola_total_witness :
    get_info_escola "abc" = ⟨"ID Inválido", "Desconhecido"⟩ ∧
    get_info_escola "9999" = ⟨"ID 9999 (Não encontrada)", "Desconhecido"⟩ ∧
    (get_info_escola "9999").municipio ≠ "" :=
  ⟨(get_info_escola_total "abc").1 rfl,
   (get_info_escola_total "9999").2.1 9999 rfl rfl,
   (get_info_escola_total "9999").2.2⟩

/-- C9: a present but unparseable `escola_id` passes the required-field
check (it is a non-empty string), so the request is not rejected as a
validation error: the municipality resolves to the `"Desconhecido"`
("Unknown") sentinel, the photo is written under `uploads/Desconhecido`
(whose directory remains created afterwards), the row construction then
fails on `int(escola_id)`, and the route returns `persistenceFailed` (500)
having deleted the just-written file and added no row. -/
theorem unparseable_escola_id_persistence_failed (st : AppState)
    (inp : RegInput)
    (hvalid : regValid inp = true)
    (hparse : pyInt (inp.escola_id.getD "") = none)
    (hndup : st.rows.all (fun p => p.cpf != inp.cpf.getD "") = true)
    (hnodup : st.files.Nodup) :
    (processar_cadastro st inp true true).1 = RegResult.persistenceFailed ∧
    regHttpStatus (processar_cadastro st inp true true).1 = 500 ∧
    get_info_escola (inp.escola_id.getD "") = ⟨"ID Inválido", "Desconhecido"⟩ ∧
    resolvePasta (get_info_escola (inp.escola_id.getD "")).municipio =
      "uploads/Desconhecido" ∧
    "uploads/Desconhecido" ∈ (processar_cadastro st inp true true).2.dirs ∧
    (processar_cadastro st inp true true).2.rows = st.rows ∧
    regCaminho inp ∉ (processar_cadastro st inp true true).2.files ∧
    ∀ f ∈ (processar_cadastro st inp true true).2.files, f ∈ st.files := by
  simp only [regValid, Bool.and_eq_true] at hvalid
  obtain ⟨hfT, hcT⟩ := hvalid
  have hany : (st.rows.any fun p => p.cpf == inp.cpf.getD "") = false := by
    rw [List.any_eq_false]
    intro q hq
    have := List.all_eq_true.mp hndup q hq
    simpa using this
  have hinfo : get_info_escola (inp.escola_id.getD "") =
      ⟨"ID Inválido", "Desconhecido"⟩ := by
    simp only [get_info_escola, hparse]
  have hpasta : resolvePasta (get_info_escola (inp.escola_id.getD "")).municipio =
      "uploads/Desconhecido" := by
    rw [hinfo]
    rfl
  have hred : processar_cadastro st inp true true =
      (RegResult.persistenceFailed,
       { st with
          dirs := if resolvePasta (get_info_escola (inp.escola_id.getD "")).municipio
              ∈ st.dirs then st.dirs
            else resolvePasta (get_info_escola (inp.escola_id.getD "")).municipio
              :: st.dirs,
          files := (saveFile (regCaminho inp) st.files).erase (regCaminho inp) }) := by
    simp only [processar_cadastro, hfT, hcT, hany, hparse]
    rfl
  rw [hred]
  refine ⟨rfl, rfl, hinfo, hpasta, ?_, rfl, not_mem_erase_saveFile hnodup,
    fun f hf => erase_saveFile_subset hf⟩
  show "uploads/Desconhecido" ∈
    (if resolvePasta (get_info_escola (inp.escola_id.getD "")).municipio ∈ st.dirs
     then st.dirs
     else resolvePasta (get_info_escola (inp.escola_id.getD "")).municipio :: st.dirs)
  rw [hpasta]
  split
  · assumption
  · exact List.mem_cons_self _ _

/-- Witness for C9: Ana's data with `escola_id = "abc"` against a fresh
deployment. -/
theorem unparseable_escola_id_persistence_failed_witness :
    regValid ⟨some "Ana Silva", some "12345678901", some "abc",
      some "EE Governador Modelo I", some ⟨"foto.jpg"⟩⟩ = true ∧
    pyInt "abc" = none ∧
    (processar_cadastro initialState
      ⟨some "Ana Silva", some "12345678901", some "abc",
       some "EE Governador Modelo I", some ⟨"foto.jpg"⟩⟩ true true).1 =
      RegResult.persistenceFailed ∧
    "uploads/Desconhecido" ∈ (processar_cadastro initialState
      ⟨some "Ana Silva", some "12345678901", some "abc",
       some "EE Governador Modelo I", some ⟨"foto.jpg"⟩⟩ true true).2.dirs ∧
    (processar_cadastro initialState
      ⟨some "Ana Silva", some "12345678901", some "abc",
       some "EE Governador Modelo I", some ⟨"foto.jpg"⟩⟩ true true).2.rows = [] :=
  ⟨rfl, rfl,
   (unparseable_escola_id_persistence_failed initialState
     ⟨some "Ana Silva", some "12345678901", some "abc",
      some "EE Governador Modelo I", some ⟨"foto.jpg"⟩⟩ rfl rfl rfl
     List.nodup_nil).1,
   (unparseable_escola_id_persistence_failed initialState
     ⟨some "Ana Silva", some "12345678901", some "abc",
      some "EE Governador Modelo I", some ⟨"foto.jpg"⟩⟩ rfl rfl rfl
     List.nodup_nil).2.2.2.2.1,
   (unparseable_escola_id_persistence_failed initialState
     ⟨some "Ana Silva", some "12345678901", some "abc",
      some "EE Governador Modelo I", some ⟨"foto.jpg"⟩⟩ rfl rfl rfl
     List.nodup_nil).2.2.2.2.2.1⟩

/-- C10: the school name of a successful registration response is the
request's separate `nome_escola` form field echoed verbatim — the
validation gate does not read it (swapping it changes nothing about
validation), it is never compared against the School Directory, a request
omitting it still succeeds, and its JSON value is then `none` (null). -/
theorem nome_escola_echoed_verbatim (st : AppState) (inp : RegInput)
    (eid : Int)
    (hvalid : regValid inp = true)
    (hparse : pyInt (inp.escola_id.getD "") = some eid)
    (hndup : st.rows.all (fun p => p.cpf != inp.cpf.getD "") = true) :
    (processar_cadastro st inp true true).1 =
      RegResult.success (inp.cpf.getD "") (inp.nome.getD "") inp.nome_escola ∧
    (∀ x : Option String, regValid { inp with nome_escola := x } = regValid inp) := by
  refine ⟨?_, fun x => rfl⟩
  simp only [regValid, Bool.and_eq_true] at hvalid
  obtain ⟨hfT, hcT⟩ := hvalid
  have hany : (st.rows.any fun p => p.cpf == inp.cpf.getD "") = false := by
    rw [List.any_eq_false]
    intro q hq
    have := List.all_eq_true.mp hndup q hq
    simpa using this
  simp only [processar_cadastro, hfT, hcT, hany, hparse]
  rfl

/-- Witness for C10: Ana's registration with the `nome_escola` field
omitted still succeeds and the response's school name is `none`. -/
theorem nome_escola_echoed_verbatim_witness :
    regValid ⟨some "Ana Silva", some "12345678901", some "101", none,
      some ⟨"foto.jpg"⟩⟩ = true ∧
    (processar_cadastro initialState
      ⟨some "Ana Silva", some "12345678901", some "101", none,
       some ⟨"foto.jpg"⟩⟩ true true).1 =
      RegResult.success "12345678901" "Ana Silva" none :=
  ⟨rfl,
   (nome_escola_echoed_verbatim initialState
     ⟨some "Ana Silva", some "12345678901", some "101", none,
      some ⟨"foto.jpg"⟩⟩ 101 rfl rfl rfl).1⟩
